import Mathlib

/-!
# Verification of the IELTS tracker's score-aggregation core

Shallow embedding of `src/ielts_tracker.py`: the band-conversion lookup
(`BAND_MAP` / `get_band`), the composite book-test ordering key
(`book_test_order`), and the three presentation pipelines built in
`view_stats` (`plot_overall`, `plot_listening_part_by_part`,
`show_stats_table`).

Modelling conventions:
* pandas DataFrames become `List AttemptRecord`; a groupby becomes
  deduplicated keys paired with sums/means over the records matching the key
  (claims checked here do not depend on pandas' key ordering);
* Python floats become `ℚ`; the float `NaN` produced by a missing value or a
  division by a zero total becomes `Option.none`;
* the band table stores each band value doubled (`BAND_MAP2`, an integer) and
  `get_band` divides the looked-up value by two, so the table itself stays in
  `ℕ` while `get_band` returns the source's `ℚ` value.
-/

namespace IeltsTracker

/-- The two exam modules handled by the tracker. -/
inductive Module : Type
  | Listening : Module
  | Reading : Module
deriving DecidableEq, Repr

/-- One row of the CSV store, as written by `add_exam`.  `part` is kept as the
string the GUI stores (`"1"`..`"4"` for Listening, `""` for Reading); `minutes`
and `avg_time_per_q` are `none` when the CSV cell is empty (pandas `NaN`). -/
structure AttemptRecord : Type where
  date : String
  time : String
  book : ℤ
  test : ℤ
  module : Module
  part : String
  question_type : String
  total_questions : ℤ
  correct : ℤ
  minutes : Option ℚ
  avg_time_per_q : Option ℚ
deriving DecidableEq, Repr

/-- The source's `BAND_MAP` dictionary with every band value doubled so the
table is integer-valued (`1 ↦ 1.0` becomes `1 ↦ 2`, `8 ↦ 3.5` becomes
`8 ↦ 7`, ...).  `dict.get(score, 0.0)` with a missing key becomes the
catch-all `0` case. -/
def BAND_MAP2 : ℤ → ℕ := fun s =>
  match s with
  | 1 => 2
  | 2 => 4
  | 3 => 4
  | 4 => 5
  | 5 => 5
  | 6 => 6
  | 7 => 6
  | 8 => 7
  | 9 => 7
  | 10 => 7
  | 11 => 8
  | 12 => 8
  | 13 => 9
  | 14 => 9
  | 15 => 9
  | 16 => 10
  | 17 => 10
  | 18 => 10
  | 19 => 10
  | 20 => 11
  | 21 => 11
  | 22 => 11
  | 23 => 12
  | 24 => 12
  | 25 => 12
  | 26 => 12
  | 27 => 13
  | 28 => 13
  | 29 => 13
  | 30 => 14
  | 31 => 14
  | 32 => 14
  | 33 => 15
  | 34 => 15
  | 35 => 16
  | 36 => 16
  | 37 => 17
  | 38 => 17
  | 39 => 18
  | 40 => 18
  | _ => 0

/-- The clipping performed at the start of `get_band`: `if score > 40:
score = 40` followed by `if score < 0: score = 0`. -/
def clip (score : ℤ) : ℤ :=
  let s1 := if 40 < score then 40 else score
  if s1 < 0 then 0 else s1

/-- `get_band` before the final division by two: clip, then look up the
doubled band table. -/
def get_band2 (score : ℤ) : ℕ := BAND_MAP2 (clip score)

/-- `get_band(score)`: convert a raw correct count to a band score.  Clips to
`[0, 40]`, then `BAND_MAP.get(score, 0.0)`. -/
def get_band (score : ℤ) : ℚ := (get_band2 score : ℚ) / 2

/-- `book_test_order(book, test) = int(book)*10 + int(test)`, the composite
sort key used wherever book-test pairs are ordered. -/
def book_test_order (book test : ℤ) : ℤ := book * 10 + test

/-- The `book_test` string column: `str(book) + "-" + str(test)`. -/
def mkBookTest (book test : ℤ) : String := toString book ++ "-" ++ toString test

/-- The `book_test` value of one record. -/
def bookTestStr (r : AttemptRecord) : String := mkBookTest r.book r.test

/-- Python string comparison on the underlying character lists (lexicographic,
by code point); used only to contrast naive string ordering with
`book_test_order`. -/
def strLtB : List Char → List Char → Bool
  | [], [] => false
  | [], _ :: _ => true
  | _ :: _, [] => false
  | a :: as, b :: bs => if a < b then true else if b < a then false else strLtB as bs

/-- `int(s)` on a string of decimal digits: `none` (where Python raises) on
an empty or non-numeric chunk. -/
def parseNatAux : List Char → ℕ → Option ℕ
  | [], acc => some acc
  | c :: cs, acc =>
    if c.isDigit then parseNatAux cs (acc * 10 + (c.toNat - '0'.toNat)) else none

/-- `int(s)` on a character chunk (digits only, as produced by the tracker's
own string splits). -/
def parseNat : List Char → Option ℕ
  | [] => none
  | l => parseNatAux l 0

/-- `int(t.split(":")[0])`: the hour component of a `"HH:MM"` time string,
`none` when the prefix before the colon is not a numeral (where Python would
raise). -/
def hourOf (t : String) : Option ℕ :=
  parseNat (t.data.takeWhile (fun c => c ≠ ':'))

/-- Sum of one integer field over a list of records. -/
def sumBy (rs : List AttemptRecord) (f : AttemptRecord → ℤ) : ℤ := (rs.map f).sum

/-- `plot_overall(module)`'s grouped table before sorting: group the module's
records by `book_test`, sum `correct` and `total_questions`, and convert the
summed correct count with `get_band`.  Entries are
`(book_test, correct, total_questions, band_score)`. -/
def overallGroups (m : Module) (rs : List AttemptRecord) :
    List (String × ℤ × ℤ × ℚ) :=
  let df_mod := rs.filter (fun r => r.module = m)
  let keys := (df_mod.map bookTestStr).dedup
  keys.map (fun bt =>
    let g := df_mod.filter (fun r => bookTestStr r = bt)
    let c := sumBy g (fun r => r.correct)
    (bt, c, sumBy g (fun r => r.total_questions), get_band c))

/-- The `sort_key` column: `book_test_order(*x.split("-"))` applied to a
`book_test` string (the tracker's `book_test` strings are digit chunks
joined by `"-"`, so plain digit parsing suffices). -/
def sortKeyOfBT (s : String) : ℤ :=
  let b := (parseNat (s.data.takeWhile (fun c => c ≠ '-'))).getD 0
  let t := (parseNat ((s.data.dropWhile (fun c => c ≠ '-')).drop 1)).getD 0
  book_test_order (b : ℤ) (t : ℤ)

/-- Insert into a list sorted on an integer key, keeping existing order among
equal keys. -/
def insertOn (key : α → ℤ) (x : α) : List α → List α
  | [] => [x]
  | y :: ys => if key x < key y then x :: y :: ys else y :: insertOn key x ys

/-- Insertion sort on an integer key, modelling `sort_values`. -/
def sortOn (key : α → ℤ) : List α → List α
  | [] => []
  | x :: xs => insertOn key x (sortOn key xs)

/-- `plot_overall`'s plotted series: the grouped table sorted by
`sort_key`. -/
def overallSeries (m : Module) (rs : List AttemptRecord) :
    List (String × ℤ × ℤ × ℚ) :=
  sortOn (fun g => sortKeyOfBT g.1) (overallGroups m rs)

/-- The colour hour of one plotted group in `plot_overall`: the hour of
`times[0]` — the first record (in store order) of the module whose
`book_test` matches — or `12` when no such record exists.  `none` models the
exception Python would raise on an unparsable time string. -/
def representativeHour (m : Module) (rs : List AttemptRecord) (bt : String) :
    Option ℕ :=
  match (rs.filter (fun r => r.module = m ∧ bookTestStr r = bt)).map
      (fun r => r.time) with
  | [] => some 12
  | t :: _ => hourOf t

/-- `plot_listening_part_by_part`'s grouped table: Listening records grouped
by `(book_test, part)` with summed `correct` and `total_questions`.  Entries
are `(book_test, part, correct, total_questions)`. -/
def partGroups (rs : List AttemptRecord) : List (String × String × ℤ × ℤ) :=
  let df_list := rs.filter (fun r => r.module = Module.Listening)
  let keys := (df_list.map (fun r => (bookTestStr r, r.part))).dedup
  keys.map (fun k =>
    let g := df_list.filter (fun r => bookTestStr r = k.1 ∧ r.part = k.2)
    (k.1, k.2, sumBy g (fun r => r.correct), sumBy g (fun r => r.total_questions)))

/-- The per-part approximate band: `percent = correct/total`, `scaled_score =
percent * 10`, `band_score = 5 + (4 * scaled_score / 10)`.  A zero total makes
the float division non-finite (`0/0` is `NaN`), modelled as `none`. -/
def partBand (c t : ℤ) : Option ℚ :=
  if t = 0 then none else some (5 + 4 * ((c : ℚ) / (t : ℚ) * 10) / 10)

/-- The y-value plotted for `(book_test, part)` in
`plot_listening_part_by_part`: `np.nan` (= `none`) when the grouped table has
no row for that combination, otherwise the row's `band_score`. -/
def seriesValue (rs : List AttemptRecord) (bt p : String) : Option ℚ :=
  match (partGroups rs).find? (fun g => g.1 = bt ∧ g.2.1 = p) with
  | none => none
  | some g => partBand g.2.2.1 g.2.2.2

/-- The accuracy computed in `show_stats_table`:
`100 * correct / total if total > 0 else 0`. -/
def statsAccuracy (c t : ℤ) : ℚ := if 0 < t then 100 * (c : ℚ) / (t : ℚ) else 0

/-- One row of the question-types stats table (numeric values before the
string formatting of the Treeview insert; `avgTime = none` renders as
`"-"` for Listening and as `NaN` for an all-`NaN` Reading group). -/
structure StatRow : Type where
  module : Module
  question_type : String
  part : String
  correct : ℤ
  total : ℤ
  accuracy : ℚ
  avgTime : Option ℚ
deriving DecidableEq, Repr

/-- `show_stats_table`'s Reading pre-filter: `df_mod[df_mod["minutes"].notna()]`
applied after selecting the Reading module. -/
def readingFiltered (rs : List AttemptRecord) : List AttemptRecord :=
  rs.filter (fun r => r.module = Module.Reading ∧ r.minutes.isSome)

/-- The Reading records contributing to the stats-table group of one
question type. -/
def readingGroup (rs : List AttemptRecord) (qt : String) : List AttemptRecord :=
  (readingFiltered rs).filter (fun r => r.question_type = qt)

/-- Summed `correct` of a Reading stats group. -/
def rCorrect (rs : List AttemptRecord) (qt : String) : ℤ :=
  sumBy (readingGroup rs qt) (fun r => r.correct)

/-- Summed `total_questions` of a Reading stats group. -/
def rTotal (rs : List AttemptRecord) (qt : String) : ℤ :=
  sumBy (readingGroup rs qt) (fun r => r.total_questions)

/-- The `avg_time_per_q` values entering a Reading stats group's mean
(pandas' `mean` skips `NaN` cells, i.e. `none` fields contribute nothing). -/
def rAvgList (rs : List AttemptRecord) (qt : String) : List ℚ :=
  (readingGroup rs qt).filterMap (fun r => r.avg_time_per_q)

/-- The mean `avg_time_per_q` of a Reading stats group; `none` (pandas `NaN`)
when every value is missing. -/
def rAvgMean (rs : List AttemptRecord) (qt : String) : Option ℚ :=
  match rAvgList rs qt with
  | [] => none
  | l => some (l.sum / (l.length : ℚ))

/-- The Reading rows of the stats table: group the minutes-filtered Reading
records by `question_type`, compute sums, accuracy and mean time, and skip
rows whose summed total is `0` (`if total == 0: continue`). -/
def readingRows (rs : List AttemptRecord) : List StatRow :=
  (((readingFiltered rs).map (fun r => r.question_type)).dedup.map (fun qt =>
      ({ module := Module.Reading, question_type := qt, part := ""
         correct := rCorrect rs qt, total := rTotal rs qt
         accuracy := statsAccuracy (rCorrect rs qt) (rTotal rs qt)
         avgTime := rAvgMean rs qt } : StatRow))).filter
    (fun row => ¬ row.total = 0)

/-- The Listening records contributing to the stats-table group of one
`(question_type, part)` key. -/
def listeningGroup (rs : List AttemptRecord) (qt p : String) :
    List AttemptRecord :=
  (rs.filter (fun r => r.module = Module.Listening)).filter
    (fun r => r.question_type = qt ∧ r.part = p)

/-- The Listening rows of the stats table: group by `(question_type, part)`,
no minutes filter, `avg_time` reported as `"-"` (= `none`), and rows with a
zero summed total skipped. -/
def listeningRows (rs : List AttemptRecord) : List StatRow :=
  let df_mod := rs.filter (fun r => r.module = Module.Listening)
  (((df_mod.map (fun r => (r.question_type, r.part))).dedup.map (fun k =>
      ({ module := Module.Listening, question_type := k.1, part := k.2
         correct := sumBy (listeningGroup rs k.1 k.2) (fun r => r.correct)
         total := sumBy (listeningGroup rs k.1 k.2) (fun r => r.total_questions)
         accuracy := statsAccuracy
           (sumBy (listeningGroup rs k.1 k.2) (fun r => r.correct))
           (sumBy (listeningGroup rs k.1 k.2) (fun r => r.total_questions))
         avgTime := none } : StatRow)))).filter
    (fun row => ¬ row.total = 0)

/-- All rows inserted into the stats-table Treeview (the source iterates
Listening first, then Reading). -/
def statsRows (rs : List AttemptRecord) : List StatRow :=
  listeningRows rs ++ readingRows rs

/-- Modelled from the spec: `clamp` restricts a raw correct count to
`[0, 40]` ("values above 40 treated as 40; negative treated as 0"). -/
def clamp (c : ℤ) : ℤ := if c < 0 then 0 else if 40 < c then 40 else c

/-- Modelled from the spec: the documented band table, transcribed from the
spec's breakpoint list ("1→1.0; 2–3→2.0; ...; 39–40→9.0; 0 (and any value
not covered) →0.0"), for comparison with the source's `get_band`. -/
def bandScoreSpec (c : ℤ) : ℚ :=
  if c = 1 then 1
  else if 2 ≤ c ∧ c ≤ 3 then 2
  else if 4 ≤ c ∧ c ≤ 5 then 5/2
  else if 6 ≤ c ∧ c ≤ 7 then 3
  else if 8 ≤ c ∧ c ≤ 10 then 7/2
  else if 11 ≤ c ∧ c ≤ 12 then 4
  else if 13 ≤ c ∧ c ≤ 15 then 9/2
  else if 16 ≤ c ∧ c ≤ 19 then 5
  else if 20 ≤ c ∧ c ≤ 22 then 11/2
  else if 23 ≤ c ∧ c ≤ 26 then 6
  else if 27 ≤ c ∧ c ≤ 29 then 13/2
  else if 30 ≤ c ∧ c ≤ 32 then 7
  else if 33 ≤ c ∧ c ≤ 34 then 15/2
  else if 35 ≤ c ∧ c ≤ 36 then 8
  else if 37 ≤ c ∧ c ≤ 38 then 17/2
  else if 39 ≤ c ∧ c ≤ 40 then 9
  else 0

/-- A Listening record whose summed total is zero (enterable through the
form: `correct <= total` holds and no positivity check exists for
`total_questions`). -/
def zeroRec : AttemptRecord :=
  { date := "2026-01-01", time := "09:00", book := 15, test := 1
    module := Module.Listening, part := "1", question_type := "Multiple choice"
    total_questions := 0, correct := 0, minutes := none, avg_time_per_q := none }

/-- A Listening part-1 attempt recorded at 14:10. -/
def rec1410 : AttemptRecord :=
  { date := "2026-01-01", time := "14:10", book := 15, test := 1
    module := Module.Listening, part := "1", question_type := "Multiple choice"
    total_questions := 10, correct := 8, minutes := none, avg_time_per_q := none }

/-- A Listening part-2 attempt of the same test, recorded later in the store
but at the earlier clock time 09:05. -/
def rec0905 : AttemptRecord :=
  { date := "2026-01-01", time := "09:05", book := 15, test := 1
    module := Module.Listening, part := "2", question_type := "Multiple choice"
    total_questions := 10, correct := 6, minutes := none, avg_time_per_q := none }

/-- A Reading record violating the `correct <= total` invariant
(`correct = 23`, `total = 20`). -/
def rec23 : AttemptRecord :=
  { date := "2026-01-01", time := "10:00", book := 15, test := 1
    module := Module.Reading, part := "", question_type := "Multiple choice"
    total_questions := 20, correct := 23, minutes := some 10
    avg_time_per_q := some (1/2) }

/-- A Reading record whose minutes field was left empty (stored as `NaN`). -/
def noMinutesRec : AttemptRecord :=
  { date := "2026-01-02", time := "11:00", book := 15, test := 2
    module := Module.Reading, part := "", question_type := "Multiple choice"
    total_questions := 10, correct := 4, minutes := none
    avg_time_per_q := none }

/-- The stats-table row produced by `rec23` alone: defined accuracy above
100%, no exception. -/
def rec23Row : StatRow :=
  { module := Module.Reading, question_type := "Multiple choice", part := ""
    correct := 23, total := 20, accuracy := statsAccuracy 23 20
    avgTime := rAvgMean [rec23] "Multiple choice" }

/-- Clipping is monotone. -/
theorem clip_mono {a b : ℤ} (h : a ≤ b) : clip a ≤ clip b := by
  simp only [clip]; split_ifs <;> omega

/-- Clipping lands in `[0, 40]`. -/
theorem clip_mem (a : ℤ) : 0 ≤ clip a ∧ clip a ≤ 40 := by
  simp only [clip]; split_ifs <;> omega

/-- The doubled band table is monotone on the clipped domain. -/
theorem BAND_MAP2_mono : ∀ i j : Fin 41, i ≤ j →
    BAND_MAP2 (i.val : ℤ) ≤ BAND_MAP2 (j.val : ℤ) := by decide

/-- The doubled band table's values on the clipped domain are `0` or lie in
`[2, 18]`. -/
theorem BAND_MAP2_range : ∀ i : Fin 41,
    BAND_MAP2 (i.val : ℤ) = 0 ∨
      (2 ≤ BAND_MAP2 (i.val : ℤ) ∧ BAND_MAP2 (i.val : ℤ) ≤ 18) := by decide

/-- Rewriting `get_band2` through the `Fin 41` clipped domain. -/
theorem get_band2_eq_fin (s : ℤ) :
    get_band2 s = BAND_MAP2 (((⟨(clip s).toNat, by
      have := clip_mem s; omega⟩ : Fin 41)).val : ℤ) := by
  simp only [get_band2]
  congr 1
  have := clip_mem s
  omega

set_option maxHeartbeats 1000000 in
/-- C1: for every integer `c` in `[0, 40]`, `get_band c` equals the
documented lookup-table value (transcribed in `bandScoreSpec`); for `c < 0`
it equals `get_band 0`, for `c > 40` it equals `get_band 40`, and
`get_band (clamp c) = get_band c` for every integer `c`. -/
theorem get_band_table_and_clamping :
    (∀ c : ℤ, 0 ≤ c → c ≤ 40 → get_band c = bandScoreSpec c) ∧
    (∀ c : ℤ, c < 0 → get_band c = get_band 0) ∧
    (∀ c : ℤ, 40 < c → get_band c = get_band 40) ∧
    (∀ c : ℤ, get_band (clamp c) = get_band c) := by
  refine ⟨?_, ?_, ?_, ?_⟩
  · intro c h1 h2
    interval_cases c <;>
      simp [get_band, get_band2, clip, BAND_MAP2, bandScoreSpec] <;> norm_num
  · intro c hc
    have h : clip c = clip 0 := by simp only [clip]; split_ifs <;> omega
    have h2 : get_band2 c = get_band2 0 := by simp only [get_band2, h]
    simp only [get_band, h2]
  · intro c hc
    have h : clip c = clip 40 := by simp only [clip]; split_ifs <;> omega
    have h2 : get_band2 c = get_band2 40 := by simp only [get_band2, h]
    simp only [get_band, h2]
  · intro c
    have h : clip (clamp c) = clip c := by
      simp only [clip, clamp]; split_ifs <;> omega
    have h2 : get_band2 (clamp c) = get_band2 c := by simp only [get_band2, h]
    simp only [get_band, h2]

/-- C1 witness: the theorem applied at `14`, `-5` and `99`. -/
theorem get_band_table_and_clamping_witness :
    get_band 14 = bandScoreSpec 14 ∧
    get_band (-5) = get_band 0 ∧
    get_band 99 = get_band 40 :=
  ⟨get_band_table_and_clamping.1 14 (by norm_num) (by norm_num),
   get_band_table_and_clamping.2.1 (-5) (by norm_num),
   get_band_table_and_clamping.2.2.1 99 (by norm_num)⟩

/-- C9: `get_band` is monotone non-decreasing over the integers, and its
value is always `0` or a half-point `k/2` with `2 ≤ k ≤ 18`
(i.e. in `1.0, 1.5, ..., 9.0`). -/
theorem get_band_monotone_and_halfpoints :
    (∀ a b : ℤ, a ≤ b → get_band a ≤ get_band b) ∧
    (∀ s : ℤ, get_band s = 0 ∨
      ∃ k : ℕ, 2 ≤ k ∧ k ≤ 18 ∧ get_band s = (k : ℚ) / 2) := by
  constructor
  · intro a b h
    have h2 : get_band2 a ≤ get_band2 b := by
      rw [get_band2_eq_fin a, get_band2_eq_fin b]
      apply BAND_MAP2_mono
      have ha := clip_mem a
      have hb := clip_mem b
      have := clip_mono h
      simp only [Fin.mk_le_mk]
      omega
    simp only [get_band]
    have : (get_band2 a : ℚ) ≤ (get_band2 b : ℚ) := by exact_mod_cast h2
    linarith
  · intro s
    rcases BAND_MAP2_range ⟨(clip s).toNat, by have := clip_mem s; omega⟩ with h | h
    · left
      simp only [get_band, get_band2_eq_fin s, h]
      norm_num
    · right
      exact ⟨get_band2 s, by rw [get_band2_eq_fin s]; exact h.1,
             by rw [get_band2_eq_fin s]; exact h.2, rfl⟩

/-- C9 witness: monotonicity applied at `7 ≤ 25`, and the range fact at
`25`. -/
theorem get_band_monotone_and_halfpoints_witness :
    get_band 7 ≤ get_band 25 ∧
    (get_band 25 = 0 ∨ ∃ k : ℕ, 2 ≤ k ∧ k ≤ 18 ∧ get_band 25 = (k : ℚ) / 2) :=
  ⟨get_band_monotone_and_halfpoints.1 7 25 (by norm_num),
   get_band_monotone_and_halfpoints.2 25⟩

/-- C2: for `total > 0` the Listening per-part sub-score is exactly
`5 + 4 * (correct/total)`; in particular `subScore(8,10) = 8.2 = 41/5` and
`subScore(6,10) = 7.4 = 37/5`, and the sub-score differs from the Band
Converter on the raw input `8`. -/
theorem partBand_linear_and_distinct :
    (∀ c t : ℤ, 0 < t → partBand c t = some (5 + 4 * ((c : ℚ) / (t : ℚ)))) ∧
    partBand 8 10 = some (41 / 5) ∧
    partBand 6 10 = some (37 / 5) ∧
    partBand 8 10 ≠ some (get_band 8) := by
  have hform : ∀ c t : ℤ, 0 < t →
      partBand c t = some (5 + 4 * ((c : ℚ) / (t : ℚ))) := by
    intro c t ht
    have ht' : ¬ t = 0 := by omega
    simp only [partBand, if_neg ht']
    congr 1
    ring
  have h8 : get_band2 8 = 7 := by decide
  refine ⟨hform, ?_, ?_, ?_⟩
  · rw [hform 8 10 (by norm_num)]; norm_num
  · rw [hform 6 10 (by norm_num)]; norm_num
  · rw [hform 8 10 (by norm_num)]
    simp only [get_band, h8, Option.some.injEq]
    norm_num

/-- C2 witness: the linear form applied at `correct = 8`, `total = 10`. -/
theorem partBand_linear_and_distinct_witness :
    partBand 8 10 = some (5 + 4 * ((8 : ℚ) / (10 : ℚ))) :=
  partBand_linear_and_distinct.1 8 10 (by norm_num)

/-- C4: the composite key orders `(15,1)` before `(16,4)` and `(9,9)` before
`(10,1)`, while naive string comparison of the labels orders `"10-1"` before
`"9-9"` — so the induced ordering is not string order. -/
theorem book_test_order_not_string_order :
    book_test_order 15 1 < book_test_order 16 4 ∧
    book_test_order 9 9 < book_test_order 10 1 ∧
    strLtB (mkBookTest 10 1).data (mkBookTest 9 9).data = true := by
  refine ⟨by decide, by decide, by decide⟩

/-- C10: with `0 ≤ test ≤ 9` the key `book*10 + test` is an order embedding
of the lexicographic order on `(book, test)`; without the bound the distinct
pairs `(15,11)` and `(16,1)` share the key `161`. -/
theorem book_test_order_lex_embedding :
    (∀ b1 t1 b2 t2 : ℤ, 0 ≤ t1 → t1 ≤ 9 → 0 ≤ t2 → t2 ≤ 9 →
      ((b1 < b2 ∨ (b1 = b2 ∧ t1 < t2)) ↔
        book_test_order b1 t1 < book_test_order b2 t2)) ∧
    (book_test_order 15 11 = book_test_order 16 1 ∧
      ¬ ((15 : ℤ), (11 : ℤ)) = ((16 : ℤ), (1 : ℤ))) := by
  constructor
  · intro b1 t1 b2 t2 h1 h2 h3 h4
    simp only [book_test_order]
    omega
  · exact ⟨by decide, by decide⟩

/-- C10 witness: the embedding applied at `(15,1)` and `(16,4)`. -/
theorem book_test_order_lex_embedding_witness :
    ((15 : ℤ) < 16 ∨ ((15 : ℤ) = 16 ∧ (1 : ℤ) < 4)) ↔
      book_test_order 15 1 < book_test_order 16 4 :=
  book_test_order_lex_embedding.1 15 1 16 4 (by norm_num) (by norm_num)
    (by norm_num) (by norm_num)

/-- C3 counterexample: a single Listening record with `total_questions = 0`
produces a zero-total group that appears in the overall per-test series
(`plot_overall` has no zero-total guard) and in the per-part grouped table
(`plot_listening_part_by_part` divides `correct/total` unguarded; the `0/0`
band value is the `NaN` modelled by `none`). -/
theorem zero_total_group_reaches_presentation :
    overallSeries Module.Listening [zeroRec] = [("15-1", 0, 0, get_band 0)] ∧
    partGroups [zeroRec] = [("15-1", "1", 0, 0)] ∧
    partBand 0 0 = none := by
  exact ⟨rfl, by decide, rfl⟩

/-- C3 amended: only the question-type stats table excludes zero-total
groups — every row it presents has a non-zero summed total. -/
theorem statsRows_no_zero_total :
    ∀ rs : List AttemptRecord, ∀ row : StatRow,
      row ∈ statsRows rs → ¬ row.total = 0 := by
  intro rs row h
  simp only [statsRows, listeningRows, readingRows, List.mem_append] at h
  rcases h with h | h <;>
    · have h2 := (List.mem_filter.mp h).2
      simpa using h2

/-- C3 amended witness: the theorem applied to the stats row of a normal
Listening record. -/
theorem statsRows_no_zero_total_witness :
    ¬ ({ module := Module.Listening, question_type := "Multiple choice"
         part := "1", correct := 8, total := 10
         accuracy := statsAccuracy 8 10, avgTime := none } : StatRow).total = 0 :=
  statsRows_no_zero_total [rec1410] _ (List.Mem.head _)

/-- C5: `representativeHour` is built from the first record of the group in
insertion order (`times[0]`): if the module-and-book-test filter yields
`r :: l`, the hour is parsed from `r.time`; if it yields nothing, the hour
defaults to 12; and on the concrete group inserted as `"14:10"` then
`"09:05"` it returns 14, not the earlier clock time 9. -/
theorem representativeHour_first_inserted :
    (∀ m : Module, ∀ rs : List AttemptRecord, ∀ bt : String,
      rs.filter (fun r => r.module = m ∧ bookTestStr r = bt) = [] →
        representativeHour m rs bt = some 12) ∧
    (∀ m : Module, ∀ rs : List AttemptRecord, ∀ bt : String,
      ∀ r : AttemptRecord, ∀ l : List AttemptRecord,
      rs.filter (fun r => r.module = m ∧ bookTestStr r = bt) = r :: l →
        representativeHour m rs bt = hourOf r.time) ∧
    representativeHour Module.Listening [rec1410, rec0905] "15-1" = some 14 := by
  refine ⟨?_, ?_, by decide⟩
  · intro m rs bt h
    simp only [representativeHour, h, List.map_nil]
  · intro m rs bt r l h
    simp only [representativeHour, h, List.map_cons]

/-- C5 witness: the default branch applied where no record matches (no
Reading record exists in the store `[rec1410]`). -/
theorem representativeHour_first_inserted_witness :
    representativeHour Module.Reading [rec1410] "15-1" = some 12 :=
  representativeHour_first_inserted.1 Module.Reading [rec1410] "15-1" (by decide)

/-- C6: a Reading record with no minutes value is excluded before grouping —
appending it changes nothing in the Reading stats rows — while a Reading
record with a present avg-time joins its group's correct sum, total sum and
the list of values averaged. -/
theorem reading_missing_minutes_excluded :
    (∀ rs : List AttemptRecord, ∀ r : AttemptRecord,
      r.module = Module.Reading → r.minutes = none →
        readingRows (rs ++ [r]) = readingRows rs) ∧
    (∀ rs : List AttemptRecord, ∀ r : AttemptRecord, ∀ a : ℚ,
      r.module = Module.Reading → r.minutes.isSome = true →
      r.avg_time_per_q = some a →
        rCorrect (rs ++ [r]) r.question_type
            = rCorrect rs r.question_type + r.correct ∧
        rTotal (rs ++ [r]) r.question_type
            = rTotal rs r.question_type + r.total_questions ∧
        rAvgList (rs ++ [r]) r.question_type
            = rAvgList rs r.question_type ++ [a]) := by
  constructor
  · intro rs r hmod hmin
    have hfe : readingFiltered (rs ++ [r]) = readingFiltered rs := by
      simp [readingFiltered, List.filter_append, hmin]
    simp only [readingRows, rCorrect, rTotal, rAvgMean, rAvgList, readingGroup,
      hfe]
  · intro rs r a hmod hmin havg
    have hfe : readingFiltered (rs ++ [r]) = readingFiltered rs ++ [r] := by
      simp [readingFiltered, List.filter_append, hmod, hmin]
    have hg : readingGroup (rs ++ [r]) r.question_type
        = readingGroup rs r.question_type ++ [r] := by
      simp [readingGroup, hfe, List.filter_append]
    refine ⟨?_, ?_, ?_⟩
    · simp [rCorrect, hg, sumBy]
    · simp [rTotal, hg, sumBy]
    · simp [rAvgList, hg, havg]

/-- C6 witness: the exclusion branch applied to a concrete no-minutes Reading
record over the store `[rec23]`, and the participation branch applied to
`rec23` itself over the empty store. -/
theorem reading_missing_minutes_excluded_witness :
    readingRows ([rec23] ++ [noMinutesRec]) = readingRows [rec23] ∧
    rAvgList ([] ++ [rec23]) rec23.question_type
      = rAvgList [] rec23.question_type ++ [1/2] :=
  ⟨reading_missing_minutes_excluded.1 [rec23] _ rfl rfl,
   (reading_missing_minutes_excluded.2 [] rec23 (1/2) rfl rfl rfl).2.2⟩

/-- C7: when the `correct <= total` invariant is violated the stats table
still produces a defined accuracy above 100% — every function here is total,
so no exception can be raised — with `statsAccuracy 23 20 = 115`; the `else 0`
error branch of the accuracy is unreachable whenever `total > 0`; and the
violating Reading record's group sums and presented row carry
`correct = 23 > 20 = total`. -/
theorem stats_accuracy_on_violated_invariant :
    (∀ c t : ℤ, 0 < t → statsAccuracy c t = 100 * (c : ℚ) / (t : ℚ)) ∧
    statsAccuracy 23 20 = 115 ∧
    rCorrect [rec23] "Multiple choice" = 23 ∧
    rTotal [rec23] "Multiple choice" = 20 ∧
    readingRows [rec23] = [rec23Row] := by
  refine ⟨?_, ?_, by decide, by decide, rfl⟩
  · intro c t ht
    simp [statsAccuracy, ht]
  · norm_num [statsAccuracy]

/-- C7 witness: the guarded branch applied at the violating input. -/
theorem stats_accuracy_on_violated_invariant_witness :
    statsAccuracy 23 20 = 100 * ((23 : ℤ) : ℚ) / ((20 : ℤ) : ℚ) :=
  stats_accuracy_on_violated_invariant.1 23 20 (by norm_num)

/-- C8: a `(book_test, part)` combination with no matching aggregate group
yields the explicit no-value sentinel `none` (`np.nan`) in the per-part
series — never `0`; concretely, part 3 of test 15-1 has no group in
`[rec1410, rec0905]` and its series value is `none`, not `some 0`. -/
theorem missing_part_combination_is_nan :
    (∀ rs : List AttemptRecord, ∀ bt p : String,
      (∀ r ∈ rs, r.module = Module.Listening →
        ¬ (bookTestStr r = bt ∧ r.part = p)) →
      seriesValue rs bt p = none) ∧
    seriesValue [rec1410, rec0905] "15-1" "3" = none ∧
    ¬ seriesValue [rec1410, rec0905] "15-1" "3" = some 0 := by
  refine ⟨?_, by decide, by decide⟩
  intro rs bt p h
  have hnone : (partGroups rs).find? (fun g => g.1 = bt ∧ g.2.1 = p) = none := by
    rw [List.find?_eq_none]
    intro g hg
    simp only [partGroups, List.mem_map] at hg
    obtain ⟨k, hk, hgk⟩ := hg
    rw [List.mem_dedup, List.mem_map] at hk
    obtain ⟨r, hr, hkr⟩ := hk
    rw [List.mem_filter] at hr
    have hmod : r.module = Module.Listening := by simpa using hr.2
    have hnot := h r hr.1 hmod
    subst hgk
    subst hkr
    simpa using hnot
  simp only [seriesValue, hnone]

/-- C8 witness: the sentinel theorem applied to a book-test string matching
no record at all. -/
theorem missing_part_combination_is_nan_witness :
    seriesValue [rec1410] "99-1" "1" = none :=
  missing_part_combination_is_nan.1 [rec1410] "99-1" "1" (by decide)

end IeltsTracker
